import Mathlib

/-!
Verification development for the datocms-plugin-everything-svg repository.

The sync engine (`src/lib/recordHelpers.ts`), the migration engine and bootstrap
reconciler (`src/index.tsx`, `modelHelpers`), and the config-screen migration
caller (`src/entrypoints/ConfigScreen/ConfigScreen.tsx`) are embedded as pure
state-passing functions.  The external DatoCMS CMA client (Record Store and
Asset Store adapters) is modelled from the spec's §6 interface description:
every remote call is recorded in a trace, and an oracle decides which remote
calls fail (a failing call raises in the source; here it takes the catch path).
JavaScript string truthiness (`undefined`/`null`/`""` are falsy) is modelled
explicitly via `truthyS`.
-/

namespace EverythingSvg

/-- JavaScript truthiness of an optional string: `undefined`, `null` and `""` are falsy. -/
def truthyS : Option String → Bool
  | none => false
  | some s => s != ""

/-- An upload in the media library: a stable id plus a mutable content address (path). -/
structure Upload where
  id : String
  path : String
deriving DecidableEq, Repr

/-- Modelled from the spec: the external Asset Store Adapter (§6).  Uploads carry a stable
id and a content address; the address-to-bytes association is content-addressed, so a
destroyed upload does not invalidate the bytes an address denotes. -/
structure AssetWorld where
  uploads : List Upload
  pathContent : List (String × String)
  nextId : Nat
deriving DecidableEq, Repr

/-- The id the Asset Store assigns to the next created upload. -/
def freshId (w : AssetWorld) : String := "upl" ++ toString w.nextId

/-- The content address the Asset Store assigns to the next created upload. -/
def freshPath (w : AssetWorld) : String := "addr" ++ toString w.nextId

/-- Modelled from the spec: `createFromContent(bytes, filename) → {id, address}` (§6). -/
def createUploadW (w : AssetWorld) (raw : String) : Upload × AssetWorld :=
  let u : Upload := { id := freshId w, path := freshPath w }
  (u, { uploads := w.uploads ++ [u]
        pathContent := (u.path, raw) :: w.pathContent
        nextId := w.nextId + 1 })

/-- Modelled from the spec: `updateContent(id, address) → void` — replace the content
address of the upload with the given id, keeping the id (§6, §3). -/
def updateUploadW (w : AssetWorld) (uploadId newPath : String) : AssetWorld :=
  { w with uploads := w.uploads.map fun u => if u.id = uploadId then { u with path := newPath } else u }

/-- Modelled from the spec: `destroy(id) → void` (§6). -/
def destroyUploadW (w : AssetWorld) (uploadId : String) : AssetWorld :=
  { w with uploads := w.uploads.filter fun u => u.id != uploadId }

/-- Association-list lookup for content addresses. -/
def lookupStr : List (String × String) → String → Option String
  | [], _ => none
  | (k, v) :: rest, key => if k == key then some v else lookupStr rest key

/-- The content an upload id currently resolves to: the bytes at its content address. -/
def resolvedContent (w : AssetWorld) (uploadId : String) : Option String :=
  (w.uploads.find? fun u => u.id == uploadId).bind fun u => lookupStr w.pathContent u.path

/-- Failure oracle for the remote calls issued by the sync engine. -/
structure Oracle where
  findFails : Bool
  createFails : Bool
  updateFails : Bool
  destroyFails : Bool
deriving DecidableEq, Repr

/-- Every remote call of the sync engine, as recorded in the trace. -/
inductive CallEv where
  | findItem (id : String)
  | createUpload (content filename : String)
  | updateUpload (id path : String)
  | destroyUpload (id : String)
deriving DecidableEq, Repr

/-- A record as stored in the Record Store, restricted to the fields the engine reads:
`relationships.item_type.data.id`, `attributes.media_upload.upload_id`, `attributes.name`. -/
structure StoredItem where
  id : String
  itemTypeId : Option String
  mediaUploadId : Option String
  name : Option String
deriving DecidableEq, Repr

/-- The world the sync engine acts on: asset store, record store, call trace, error log. -/
structure SyncState where
  world : AssetWorld
  items : List StoredItem
  trace : List CallEv
  errors : List String
deriving DecidableEq, Repr

/-- Embedding of `updateExistingUploadWithSvgContent` (recordHelpers.ts:112-137):
create a temporary upload from the raw content, update the existing upload `uploadId`
to the temporary upload's path inside a `try`, and destroy the temporary upload in the
`finally` (so the destroy call is issued whether or not the update succeeded; a failing
destroy replaces the outcome, as a throwing `finally` does in JavaScript). -/
def updateExistingUploadWithSvgContent (o : Oracle) (st : SyncState)
    (apiToken uploadId rawSvg filename : String) (environment : Option String) :
    Except Unit Unit × SyncState :=
  let _ := apiToken
  let _ := environment
  if o.createFails then
    (Except.error (), { st with trace := st.trace ++ [CallEv.createUpload rawSvg (filename ++ ".svg")] })
  else
    let tempUpload := (createUploadW st.world rawSvg).1
    let st1 : SyncState := { st with world := (createUploadW st.world rawSvg).2
                                     trace := st.trace ++ [CallEv.createUpload rawSvg (filename ++ ".svg")] }
    let upd : Except Unit Unit × SyncState :=
      if o.updateFails then
        (Except.error (), { st1 with trace := st1.trace ++ [CallEv.updateUpload uploadId tempUpload.path] })
      else
        (Except.ok (), { st1 with world := updateUploadW st1.world uploadId tempUpload.path
                                  trace := st1.trace ++ [CallEv.updateUpload uploadId tempUpload.path] })
    if o.destroyFails then
      (Except.error (), { upd.2 with trace := upd.2.trace ++ [CallEv.destroyUpload tempUpload.id] })
    else
      (upd.1, { upd.2 with world := destroyUploadW upd.2.world tempUpload.id
                           trace := upd.2.trace ++ [CallEv.destroyUpload tempUpload.id] })

/-- The `media_upload` attribute value carried by an upsert payload: present or not,
and when present its `upload_id` is a string or not. -/
structure MediaUploadAttr where
  uploadId : Option String
deriving DecidableEq, Repr

/-- The attribute set of an upsert payload, restricted to the fields the engine reads. -/
structure PayloadAttrs where
  svgContent : Option String
  mediaUpload : Option MediaUploadAttr
  name : Option String
deriving DecidableEq, Repr

/-- The empty attribute bag (the `?? {}` default in the source). -/
def emptyAttrs : PayloadAttrs := { svgContent := none, mediaUpload := none, name := none }

/-- An `ItemUpsertPayload` (recordHelpers.ts:6-12): optional record id, optional
attribute set, optional model-type identifier from `relationships.item_type.data.id`. -/
structure Payload where
  id : Option String
  attrs : Option PayloadAttrs
  itemTypeId : Option String
deriving DecidableEq, Repr

/-- The textual content the engine extracts from a payload
(`typeof attrs.svg_content === 'string' ? attrs.svg_content : ''`). -/
def payloadSvgContent (payload : Payload) : String :=
  (payload.attrs.getD emptyAttrs).svgContent.getD ""

/-- How one invocation of the sync engine ended.  Every source `return` and every
caught exception is one of these constructors; the function never propagates. -/
inductive SyncOutcome where
  | skippedParams
  | skippedContent
  | fetchFailed
  | skippedModel
  | skippedTarget
  | swapFailed
  | synced
deriving DecidableEq, Repr

/-- Embedding of recordHelpers.ts:70-83: the final guard
(`if (!uploadId || itemTypeId !== svgModelId) return`) followed by the guarded swap,
whose failure is caught and logged. -/
def syncFinish (o : Oracle) (st : SyncState) (apiToken environment : String)
    (svgModelId uploadId itemTypeId : Option String) (svgContent name : String) :
    SyncOutcome × SyncState :=
  if truthyS uploadId = false ∨ itemTypeId ≠ svgModelId then (SyncOutcome.skippedTarget, st)
  else
    let r := updateExistingUploadWithSvgContent o st apiToken (uploadId.getD "") svgContent
      (if name == "" then "untitled" else name) (some environment)
    match r.1 with
    | Except.ok _ => (SyncOutcome.synced, r.2)
    | Except.error _ =>
        (SyncOutcome.swapFailed,
         { r.2 with errors := r.2.errors ++ ["[Everything SVG] Auto-sync media on save failed:"] })

/-- Embedding of `syncMediaOnItemUpsert` (recordHelpers.ts:21-83).  Guards on
credentials and well-formed content, resolves upload id / name / item type —
fetching the current record when the payload carries a record id — and performs
the swap; a failing fetch is caught, logged and aborts. -/
def syncMediaOnItemUpsert (isSvg : String → Bool) (o : Oracle) (st : SyncState)
    (payload : Payload) (apiToken : Option String) (environment : String)
    (svgModelId : Option String) : SyncOutcome × SyncState :=
  if truthyS apiToken = false ∨ truthyS svgModelId = false then (SyncOutcome.skippedParams, st)
  else
    let svgContent := payloadSvgContent payload
    if svgContent == "" ∨ isSvg svgContent = false then (SyncOutcome.skippedContent, st)
    else
      let attrs := payload.attrs.getD emptyAttrs
      let uploadId0 := attrs.mediaUpload.bind MediaUploadAttr.uploadId
      let name0 := attrs.name.getD "untitled"
      if truthyS payload.id then
        let pid := payload.id.getD ""
        let st1 : SyncState := { st with trace := st.trace ++ [CallEv.findItem pid] }
        if o.findFails then
          (SyncOutcome.fetchFailed,
           { st1 with errors := st1.errors ++ ["[Everything SVG] Auto-sync media: failed to load current record"] })
        else
          match st1.items.find? (fun it => it.id == pid) with
          | some item =>
              let itemTypeId1 := if truthyS payload.itemTypeId then payload.itemTypeId else item.itemTypeId
              if itemTypeId1 ≠ svgModelId then (SyncOutcome.skippedModel, st1)
              else
                let uploadId1 :=
                  if truthyS uploadId0 then uploadId0
                  else match item.mediaUploadId with
                       | some s => some s
                       | none => uploadId0
                let name1 := if name0 == "untitled" && truthyS item.name then item.name.getD "" else name0
                syncFinish o st1 (apiToken.getD "") environment svgModelId uploadId1 itemTypeId1 svgContent name1
          | none =>
              (SyncOutcome.fetchFailed,
               { st1 with errors := st1.errors ++ ["[Everything SVG] Auto-sync media: failed to load current record"] })
      else
        syncFinish o st (apiToken.getD "") environment svgModelId uploadId0 payload.itemTypeId svgContent name0

/-- A legacy parameter-blob entry (the `svgs` array): id, filename, raw markup,
type tag, and an optional media-library reference. -/
structure LegacySvg where
  id : Option String
  filename : Option String
  raw : String
  type : String
  imageId : Option String
deriving DecidableEq, Repr

/-- The plugin's persisted parameters, restricted to the fields the embedded code reads. -/
structure GlobalParameters where
  isSetupComplete : Bool
  svgModelId : Option String
  svgs : List LegacySvg
deriving DecidableEq, Repr

/-- Embedding of the `onBeforeItemUpsert` hook (index.tsx:208-226): skip unless setup is
complete and a model id is configured, run the sync engine, and return `true` (allow commit). -/
def onBeforeItemUpsert (isSvg : String → Bool) (o : Oracle) (st : SyncState)
    (params : GlobalParameters) (payload : Payload) (accessToken : Option String)
    (environment : String) : Bool × SyncState :=
  if params.isSetupComplete = false ∨ truthyS params.svgModelId = false then (true, st)
  else
    (true, (syncMediaOnItemUpsert isSvg o st payload accessToken environment params.svgModelId).2)

/-- A model (item type) in the Record Store, restricted to the fields read here. -/
structure ItemTypeRec where
  id : String
  api_key : String
deriving DecidableEq, Repr

/-- Modelled from the spec: the fixed schema key of the managed model ("Schema key", §6).
The constants module is not under src/; the key also appears verbatim in the
config screen's manual-setup instructions (API key "plugin_svg"). -/
def SVG_MODEL_API_KEY : String := "plugin_svg"

/-- Failure oracle for the bootstrap reconciler's remote calls. -/
structure BootOracle where
  listFails : Bool
  createModelFails : Bool
deriving DecidableEq, Repr

/-- The world the bootstrap reconciler acts on.  `provisionCalls` counts invocations of
the Model Provisioner (`createSvgModel`). -/
structure BootState where
  params : GlobalParameters
  itemTypes : List ItemTypeRec
  provisionCalls : Nat
  errors : List String
deriving DecidableEq, Repr

/-- Embedding of `checkIfModelExists` (index.tsx:612-627): list the item types, return
the id of the first one whose api key equals the fixed schema key (`|| null` maps a
falsy id to null); a failing list call is caught, logged, and yields null. -/
def checkIfModelExists (o : BootOracle) (st : BootState) : Option String × BootState :=
  if o.listFails then
    (none, { st with errors := st.errors ++ ["Error checking for SVG model:"] })
  else
    match st.itemTypes.find? (fun it => it.api_key == SVG_MODEL_API_KEY) with
    | some svgModel => (if svgModel.id == "" then none else some svgModel.id, st)
    | none => (none, st)

/-- Embedding of the Model Provisioner `createSvgModel` (index.tsx:536-610): creates the
managed model (the four field-creation calls and the title-field update are not observable
by any claim and are elided); a failure is logged and rethrown.  Increments `provisionCalls`. -/
def createSvgModel (o : BootOracle) (st : BootState) : Except Unit String × BootState :=
  let st1 : BootState := { st with provisionCalls := st.provisionCalls + 1 }
  if o.createModelFails then
    (Except.error (), { st1 with errors := st1.errors ++ ["Error creating SVG model:"] })
  else
    let newId := "model" ++ toString st1.itemTypes.length
    (Except.ok newId, { st1 with itemTypes := st1.itemTypes ++ [{ id := newId, api_key := SVG_MODEL_API_KEY }] })

/-- Embedding of the `onBoot` reconciliation (index.tsx:44-72): when setup is not
complete, probe for an existing managed model and, if one is found, adopt its id and
mark setup complete; otherwise do nothing.  It never invokes the Model Provisioner. -/
def onBoot (o : BootOracle) (st : BootState) : BootState :=
  if st.params.isSetupComplete then st
  else
    let r := checkIfModelExists o st
    match r.1 with
    | some existingModelId =>
        { r.2 with params := { r.2.params with svgModelId := some existingModelId
                                               isSetupComplete := true } }
    | none => r.2

/-- The record data assembled for one legacy entry by the migration loop
(index.tsx:639-651): name from `svg.filename || 'Untitled SVG'`, raw content, type tag,
and — only for a truthy `image`-typed reference — the carried-over upload id. -/
structure MigRecordData where
  itemTypeId : String
  name : String
  svg_content : String
  svg_type : String
  media_upload : Option String
deriving DecidableEq, Repr

/-- Builds the record data for one legacy entry (index.tsx:639-651). -/
def mkMigRecordData (modelId : String) (svg : LegacySvg) : MigRecordData :=
  { itemTypeId := modelId
    name := if truthyS svg.filename then svg.filename.getD "" else "Untitled SVG"
    svg_content := svg.raw
    svg_type := svg.type
    media_upload := if svg.type == "image" && truthyS svg.imageId then svg.imageId else none }

/-- A record returned by `client.items.create` during migration. -/
structure CreatedRecord where
  id : String
  data : MigRecordData
deriving DecidableEq, Repr

/-- The world the migration engine acts on.  `createCalls` counts record-create calls
(and indexes the failure oracle); `uploadCalls` counts Asset Store upload calls. -/
structure MigState where
  records : List CreatedRecord
  createCalls : Nat
  uploadCalls : Nat
  errors : List String
deriving DecidableEq, Repr

/-- Embedding of `uploadSvgToMediaLibrary` (recordHelpers.ts:86-106) as seen by the
migration world: the one operation that issues an Asset Store upload call. -/
def uploadSvgToMediaLibraryM (st : MigState) (rawSvg filename : String) : String × MigState :=
  let _ := rawSvg
  let _ := filename
  ("upl" ++ toString st.uploadCalls, { st with uploadCalls := st.uploadCalls + 1 })

/-- Embedding of `migrateSvgsToRecords` (index.tsx:629-662): for each entry, build the
record data and attempt one record-create call; a failing call is caught and logged and
the loop continues; successfully created records are accumulated in input order. -/
def migrateSvgsToRecords (fail : Nat → Bool) (st : MigState) (modelId : String) :
    List LegacySvg → List CreatedRecord × MigState
  | [] => ([], st)
  | svg :: rest =>
      let recordData := mkMigRecordData modelId svg
      if fail st.createCalls then
        let st1 : MigState :=
          { st with createCalls := st.createCalls + 1
                    errors := st.errors ++
                      ["Error migrating SVG " ++
                        (if truthyS svg.filename then svg.filename.getD "" else svg.id.getD "") ++ ":"] }
        migrateSvgsToRecords fail st1 modelId rest
      else
        let newRec : CreatedRecord := { id := "rec" ++ toString st.createCalls, data := recordData }
        let st1 : MigState := { st with records := st.records ++ [newRec]
                                        createCalls := st.createCalls + 1 }
        let r := migrateSvgsToRecords fail st1 modelId rest
        (newRec :: r.1, r.2)

/-- Specification-side description of the migration result (§4.3): exactly the entries
whose create call succeeds, in input order, each mapped to its record data; `k` is the
index of the next create call. -/
def migSpecResult (fail : Nat → Bool) (k : Nat) (modelId : String) : List LegacySvg → List MigRecordData
  | [] => []
  | svg :: rest =>
      if fail k then migSpecResult fail (k + 1) modelId rest
      else mkMigRecordData modelId svg :: migSpecResult fail (k + 1) modelId rest

/-- The world of the config screen: plugin parameters, migration world, notices, alerts. -/
structure ConfigState where
  params : GlobalParameters
  mig : MigState
  notices : List String
  alerts : List String
deriving DecidableEq, Repr

/-- Embedding of `handleMigration` (ConfigScreen.tsx:77-141): alert when there is
nothing to migrate or no model id; stop when the confirm dialog is not answered
"migrate"; otherwise run the migration and then persist the parameters with `svgs: []`
and show a success notice (the migration loop catches every per-entry failure, so the
catch branch of the caller is unreachable in this model). -/
def handleMigration (fail : Nat → Bool) (confirmChoice : String) (st : ConfigState) : ConfigState :=
  let svgsToMigrate := st.params.svgs
  if svgsToMigrate.length == 0 then
    { st with alerts := st.alerts ++ ["No SVGs to migrate!"] }
  else if truthyS st.params.svgModelId = false then
    { st with alerts := st.alerts ++ ["SVG model not found! Please complete setup first."] }
  else if confirmChoice != "migrate" then st
  else
    let r := migrateSvgsToRecords fail st.mig (st.params.svgModelId.getD "") svgsToMigrate
    { st with mig := r.2
              params := { st.params with svgs := [] }
              notices := st.notices ++
                ["Successfully migrated " ++ toString svgsToMigrate.length ++ " SVG(s) to records!"] }

/-- The record the sync engine would fetch for a payload carrying a record id. -/
def fetchedItem (payload : Payload) (items : List StoredItem) : Option StoredItem :=
  items.find? (fun it => it.id == payload.id.getD "")

/-- The model-type identifier the sync engine acts on: the payload's when truthy,
otherwise (for a fetched update) the stored record's. -/
def effItemType (payload : Payload) (items : List StoredItem) : Option String :=
  if truthyS payload.id then
    match fetchedItem payload items with
    | some item => if truthyS payload.itemTypeId then payload.itemTypeId else item.itemTypeId
    | none => payload.itemTypeId
  else payload.itemTypeId

/-- The upload id the sync engine resolves: the payload's when truthy, otherwise
(for a fetched update) the stored record's `media_upload.upload_id` when present. -/
def effUploadId (payload : Payload) (items : List StoredItem) : Option String :=
  let uploadId0 := (payload.attrs.getD emptyAttrs).mediaUpload.bind MediaUploadAttr.uploadId
  if truthyS payload.id then
    match fetchedItem payload items with
    | some item =>
        if truthyS uploadId0 then uploadId0
        else match item.mediaUploadId with
             | some s => some s
             | none => uploadId0
    | none => uploadId0
  else uploadId0

/-- Whether a trace event is an Asset Store upload call (create/update/destroy). -/
def isUploadCall : CallEv → Bool
  | CallEv.findItem _ => false
  | CallEv.createUpload _ _ => true
  | CallEv.updateUpload _ _ => true
  | CallEv.destroyUpload _ => true

/-- The number of Asset Store upload calls in a trace. -/
def uploadCallCount (tr : List CallEv) : Nat := (tr.filter isUploadCall).length

/-- The oracle lets every remote call succeed. -/
abbrev allOk (o : Oracle) : Prop :=
  o.findFails = false ∧ o.createFails = false ∧ o.updateFails = false ∧ o.destroyFails = false

/-- The next allocated upload id and address are not already in use. -/
abbrev freshOk (w : AssetWorld) : Prop :=
  freshId w ∉ w.uploads.map Upload.id ∧
  freshPath w ∉ w.uploads.map Upload.path ∧
  freshPath w ∉ w.pathContent.map Prod.fst

/-! Concrete example values used by witnesses and counterexamples. -/

/-- A toy well-formedness check standing in for the external `is-svg` library. -/
def cIsSvg : String → Bool := fun s => s == "<svg/>"

/-- A one-upload asset world: upload `a1` at address `addr0` holding `old`. -/
def cWorld : AssetWorld :=
  { uploads := [{ id := "a1", path := "addr0" }], pathContent := [("addr0", "old")], nextId := 1 }

/-- One stored record `r1` of model `m1` referencing upload `a1`. -/
def cItems : List StoredItem :=
  [{ id := "r1", itemTypeId := some "m1", mediaUploadId := some "a1", name := some "Icon" }]

/-- A sync world built from `cWorld` and `cItems`, with empty trace and log. -/
def cSyncSt : SyncState := { world := cWorld, items := cItems, trace := [], errors := [] }

/-- The all-succeed oracle. -/
def cOracle : Oracle := { findFails := false, createFails := false, updateFails := false, destroyFails := false }

/-- An oracle where only the content-replace call fails. -/
def cOracleUpdFail : Oracle := { findFails := false, createFails := false, updateFails := true, destroyFails := false }

/-- An update payload with valid content that does not identify its model type. -/
def cPayloadNoType : Payload :=
  { id := some "r1"
    attrs := some { svgContent := some "<svg/>", mediaUpload := none, name := none }
    itemTypeId := none }

/-- A create payload with valid content, an explicit upload reference and model type. -/
def cPayloadCreate : Payload :=
  { id := none
    attrs := some { svgContent := some "<svg/>", mediaUpload := some { uploadId := some "a1" }, name := some "Icon" }
    itemTypeId := some "m1" }

/-- An update payload whose content is not well-formed for `cIsSvg`. -/
def cPayloadBad : Payload :=
  { id := some "r1"
    attrs := some { svgContent := some "<div>", mediaUpload := none, name := none }
    itemTypeId := some "m1" }

/-- A bootstrap world with setup incomplete and one matching model in the store. -/
def cBootSt : BootState :=
  { params := { isSetupComplete := false, svgModelId := none, svgs := [] }
    itemTypes := [{ id := "m1", api_key := "plugin_svg" }]
    provisionCalls := 0
    errors := [] }

/-- Legacy entry A of the migration counterexample. -/
def cSvgA : LegacySvg := { id := some "1", filename := some "a", raw := "one", type := "svg", imageId := none }

/-- Legacy entry B of the migration counterexample. -/
def cSvgB : LegacySvg := { id := some "2", filename := some "b", raw := "two", type := "svg", imageId := none }

/-- Failure oracle for migration: exactly the second create call fails. -/
def cMigFail : Nat → Bool := fun n => n == 1

/-- A config-screen world holding the two legacy entries, with a configured model id. -/
def cConfigSt : ConfigState :=
  { params := { isSetupComplete := true, svgModelId := some "m1", svgs := [cSvgA, cSvgB] }
    mig := { records := [], createCalls := 0, uploadCalls := 0, errors := [] }
    notices := []
    alerts := [] }

/-! Helper lemmas about the asset-store operations. -/

/-- Filtering away an id that does not occur leaves the upload list unchanged. -/
theorem filter_ne_of_not_mem (l : List Upload) (tid : String) (h : tid ∉ l.map Upload.id) :
    l.filter (fun u => u.id != tid) = l := by
  induction l with
  | nil => rfl
  | cons u rest ih =>
      simp only [List.map_cons, List.mem_cons] at h
      push_neg at h
      have hu : (u.id != tid) = true := by
        simp [bne_iff_ne]
        exact fun hh => h.1 hh.symm
      simp [List.filter_cons, hu, ih h.2]

/-- Rewriting the path of the uploads with a given id does not change the id list. -/
theorem ids_of_map_set_path (l : List Upload) (aid p : String) :
    (l.map fun u => if u.id = aid then { u with path := p } else u).map Upload.id
      = l.map Upload.id := by
  induction l with
  | nil => rfl
  | cons u rest ih =>
      by_cases hu : u.id = aid <;> simp [hu, ih]

/-- After the path rewrite, looking up the id finds the upload with the new path. -/
theorem find?_map_set_path (l : List Upload) (aid p : String) (h : aid ∈ l.map Upload.id) :
    ((l.map fun u => if u.id = aid then { u with path := p } else u).find?
        fun u => u.id == aid) = some { id := aid, path := p } := by
  induction l with
  | nil => simp at h
  | cons u rest ih =>
      by_cases hu : u.id = aid
      · simp [List.find?, hu]
      · have h' : aid ∈ rest.map Upload.id := by
          simp only [List.map_cons, List.mem_cons] at h
          exact h.resolve_left (fun hh => hu hh.symm)
        have hb : (u.id == aid) = false := by simp [hu]
        simp [List.find?, hu, hb, ih h']

/-- Appending a fresh temporary upload, rewriting the target's path to the temporary's
address, and then filtering the temporary away equals rewriting in place. -/
theorem swap_uploads_eq (l : List Upload) (aid fid fp : String)
    (hfi : fid ∉ l.map Upload.id) (hne : fid ≠ aid) :
    (((l ++ [({ id := fid, path := fp } : Upload)]).map fun (u : Upload) => if u.id = aid then { u with path := fp } else u).filter
        fun (u : Upload) => u.id != fid)
      = l.map fun (u : Upload) => if u.id = aid then { u with path := fp } else u := by
  rw [List.map_append, List.filter_append]
  have e1 : (([({ id := fid, path := fp } : Upload)]).map fun (u : Upload) => if u.id = aid then { u with path := fp } else u)
      = [{ id := fid, path := fp }] := by simp [hne]
  rw [e1]
  have e2 : (([({ id := fid, path := fp } : Upload)]).filter fun (u : Upload) => u.id != fid) = [] := by simp
  rw [e2, List.append_nil]
  apply filter_ne_of_not_mem
  rw [ids_of_map_set_path]
  exact hfi

/-- Characterization of a fully successful swap call: outcome ok, the three upload calls
appended to the trace, and the world transformed by create/update/destroy. -/
theorem updateExisting_allOk_eq (o : Oracle) (st : SyncState) (tok aid raw fn : String)
    (env : Option String) (ho : allOk o) :
    updateExistingUploadWithSvgContent o st tok aid raw fn env =
      (Except.ok (),
       { world := destroyUploadW (updateUploadW (createUploadW st.world raw).2 aid (freshPath st.world)) (freshId st.world)
         items := st.items
         trace := st.trace ++ [CallEv.createUpload raw (fn ++ ".svg"),
                               CallEv.updateUpload aid (freshPath st.world),
                               CallEv.destroyUpload (freshId st.world)]
         errors := st.errors }) := by
  obtain ⟨h1, h2, h3, h4⟩ := ho
  simp [updateExistingUploadWithSvgContent, h2, h3, h4, createUploadW]

/-- The world after a successful swap: the target upload's path is rewritten to the fresh
address, the temporary upload is gone, and the fresh address holds the new content. -/
theorem world_after_swap (w : AssetWorld) (aid raw : String)
    (hmem : aid ∈ w.uploads.map Upload.id) (hf : freshOk w) :
    destroyUploadW (updateUploadW (createUploadW w raw).2 aid (freshPath w)) (freshId w) =
      { uploads := w.uploads.map fun u => if u.id = aid then { u with path := freshPath w } else u
        pathContent := (freshPath w, raw) :: w.pathContent
        nextId := w.nextId + 1 } := by
  obtain ⟨hfi, _, _⟩ := hf
  have hne : freshId w ≠ aid := fun h => hfi (h ▸ hmem)
  simp only [createUploadW, updateUploadW, destroyUploadW]
  congr 1
  exact swap_uploads_eq w.uploads aid (freshId w) (freshPath w) hfi hne

/-- Resolving the target id after a successful swap yields the new content. -/
theorem resolved_after_swap (w : AssetWorld) (aid raw : String)
    (hmem : aid ∈ w.uploads.map Upload.id) (hf : freshOk w) :
    resolvedContent
        (destroyUploadW (updateUploadW (createUploadW w raw).2 aid (freshPath w)) (freshId w)) aid
      = some raw := by
  rw [world_after_swap w aid raw hmem hf]
  unfold resolvedContent
  rw [find?_map_set_path w.uploads aid (freshPath w) hmem]
  simp [lookupStr]

/-- C2: For every payload, plugin-parameter state, oracle (including every failing one)
and world, the pre-commit hook `onBeforeItemUpsert` resolves to the allow-commit signal
`true`; `syncMediaOnItemUpsert` is embedded as a total function whose every failure path
(record fetch failure, upload create/replace/destroy failure) ends in a `SyncOutcome`
rather than propagating, so the hook never rejects or blocks the record commit. -/
theorem C2_hook_always_allows_commit (isSvg : String → Bool) (o : Oracle) (st : SyncState)
    (params : GlobalParameters) (payload : Payload) (accessToken : Option String)
    (environment : String) :
    (onBeforeItemUpsert isSvg o st params payload accessToken environment).1 = true := by
  unfold onBeforeItemUpsert
  split <;> rfl

/-- C6: When the payload's attribute set yields no well-formed SVG string (absent
`svg_content`, the empty string, or content rejected by the well-formedness check),
`syncMediaOnItemUpsert` returns with the world unchanged: no Asset Store call, no
Record Store call, no error logged, and the pre-call asset content intact. -/
theorem C6_invalid_content_is_noop (isSvg : String → Bool) (o : Oracle) (st : SyncState)
    (payload : Payload) (apiToken : Option String) (environment : String)
    (svgModelId : Option String)
    (h : payloadSvgContent payload = "" ∨ isSvg (payloadSvgContent payload) = false) :
    (syncMediaOnItemUpsert isSvg o st payload apiToken environment svgModelId).2 = st := by
  unfold syncMediaOnItemUpsert
  split
  · rfl
  · have hcond : (payloadSvgContent payload == "") = true ∨ isSvg (payloadSvgContent payload) = false := by
      rcases h with h | h
      · exact Or.inl (by simp [h])
      · exact Or.inr h
    rcases hcond with hc | hc <;> simp [hc]

/-- Witness for C6 at a concrete malformed payload. -/
theorem C6_witness :
    (payloadSvgContent cPayloadBad = "" ∨ cIsSvg (payloadSvgContent cPayloadBad) = false)
    ∧ (syncMediaOnItemUpsert cIsSvg cOracle cSyncSt cPayloadBad (some "tok") "main" (some "m1")).2 = cSyncSt :=
  ⟨by decide,
   C6_invalid_content_is_noop cIsSvg cOracle cSyncSt cPayloadBad (some "tok") "main" (some "m1") (by decide)⟩

/-- C4: The migration loop attempts one create call per entry (createCalls advances by
the input length, so no per-entry failure aborts the batch), the returned list is exactly
the successfully migrated entries in input order with no reordering and no deduplication
(`migSpecResult`), and successes plus logged failures account for every entry; the empty
input yields the empty result as the `migSpecResult` equation instantiates to `[]`. -/
theorem C4_migration_exact_order (fail : Nat → Bool) (st : MigState) (modelId : String)
    (svgs : List LegacySvg) :
    (migrateSvgsToRecords fail st modelId svgs).1.map CreatedRecord.data
        = migSpecResult fail st.createCalls modelId svgs
      ∧ (migrateSvgsToRecords fail st modelId svgs).2.createCalls = st.createCalls + svgs.length
      ∧ (migrateSvgsToRecords fail st modelId svgs).1.length
          + (migrateSvgsToRecords fail st modelId svgs).2.errors.length
        = svgs.length + st.errors.length := by
  induction svgs generalizing st with
  | nil => simp [migrateSvgsToRecords, migSpecResult]
  | cons svg rest ih =>
      by_cases hf : fail st.createCalls
      · obtain ⟨ih1, ih2, ih3⟩ := ih
          { st with createCalls := st.createCalls + 1
                    errors := st.errors ++
                      ["Error migrating SVG " ++
                        (if truthyS svg.filename then svg.filename.getD "" else svg.id.getD "") ++ ":"] }
        refine ⟨?_, ?_, ?_⟩
        · simpa [migrateSvgsToRecords, migSpecResult, hf] using ih1
        · simp only [migrateSvgsToRecords, hf, if_pos] at ih2 ⊢
          simp at ih2 ⊢
          omega
        · simp only [migrateSvgsToRecords, hf, if_pos] at ih3 ⊢
          simp at ih3 ⊢
          omega
      · obtain ⟨ih1, ih2, ih3⟩ := ih
          { st with records := st.records ++ [{ id := "rec" ++ toString st.createCalls, data := mkMigRecordData modelId svg }]
                    createCalls := st.createCalls + 1 }
        refine ⟨?_, ?_, ?_⟩
        · simpa [migrateSvgsToRecords, migSpecResult, hf] using ih1
        · simp only [migrateSvgsToRecords, hf, if_neg] at ih2 ⊢
          simp at ih2 ⊢
          omega
        · simp only [migrateSvgsToRecords, hf, if_neg] at ih3 ⊢
          simp at ih3 ⊢
          omega

/-- C5: From a not-yet-complete setup, when the item-type listing succeeds, a single
`onBoot` run adopts the id of the discovered model with the fixed schema key and marks
setup complete — touching neither the legacy entries nor the Model Provisioner call
count — and when no such model exists the state is entirely unchanged. -/
theorem C5_bootstrap_self_heals (o : BootOracle) (st : BootState) (it : ItemTypeRec)
    (hsetup : st.params.isSetupComplete = false) (hlist : o.listFails = false) :
    ((st.itemTypes.find? fun x => x.api_key == SVG_MODEL_API_KEY) = some it → it.id ≠ "" →
        (onBoot o st).params.svgModelId = some it.id
        ∧ (onBoot o st).params.isSetupComplete = true
        ∧ (onBoot o st).params.svgs = st.params.svgs
        ∧ (onBoot o st).provisionCalls = st.provisionCalls)
    ∧ ((st.itemTypes.find? fun x => x.api_key == SVG_MODEL_API_KEY) = none →
        onBoot o st = st) := by
  constructor
  · intro hfind hid
    have hidb : (it.id == "") = false := by simp [hid]
    simp [onBoot, checkIfModelExists, hsetup, hlist, hfind, hidb]
  · intro hfind
    simp [onBoot, checkIfModelExists, hsetup, hlist, hfind]

/-- Witness for C5 at the concrete bootstrap world `cBootSt`. -/
theorem C5_witness :
    (onBoot { listFails := false, createModelFails := false } cBootSt).params.svgModelId = some "m1"
    ∧ (onBoot { listFails := false, createModelFails := false } cBootSt).params.isSetupComplete = true
    ∧ (onBoot { listFails := false, createModelFails := false } cBootSt).provisionCalls = 0 := by
  have h := (C5_bootstrap_self_heals { listFails := false, createModelFails := false } cBootSt
      { id := "m1", api_key := "plugin_svg" } (by decide) (by decide)).1 (by decide) (by decide)
  exact ⟨h.1, h.2.1, h.2.2.2⟩

/-- C9: A legacy entry that already carries an asset reference (`type = "image"` with a
truthy `imageId`) and whose create call succeeds is migrated to a record whose
`media_upload` references that same asset id, and the migration engine issues no Asset
Store upload call for any input. -/
theorem C9_reuses_asset_reference (fail : Nat → Bool) (st : MigState) (modelId : String)
    (svg : LegacySvg) (rest : List LegacySvg) (i : String)
    (htype : svg.type = "image") (himg : svg.imageId = some i) (hi : i ≠ "")
    (hok : fail st.createCalls = false) :
    ((migrateSvgsToRecords fail st modelId (svg :: rest)).1.head?.map
        fun r => r.data.media_upload) = some (some i)
    ∧ ∀ (svgs2 : List LegacySvg) (st2 : MigState),
        (migrateSvgsToRecords fail st2 modelId svgs2).2.uploadCalls = st2.uploadCalls := by
  constructor
  · have hib : truthyS (some i) = true := by simp [truthyS, hi]
    have htb : (svg.type == "image") = true := by simp [htype]
    simp [migrateSvgsToRecords, hok, mkMigRecordData, htb, hib, himg]
  · intro svgs2
    induction svgs2 with
    | nil => intro st2; simp [migrateSvgsToRecords]
    | cons s rest2 ih =>
        intro st2
        by_cases hf : fail st2.createCalls <;> simp [migrateSvgsToRecords, hf, ih]

/-- Witness for C9 at a concrete image-typed legacy entry. -/
theorem C9_witness :
    (((migrateSvgsToRecords (fun _ => false) { records := [], createCalls := 0, uploadCalls := 0, errors := [] } "m1"
        [{ id := some "3", filename := some "c", raw := "pic", type := "image", imageId := some "a9" }]).1.head?.map
          fun r => r.data.media_upload) = some (some "a9"))
    ∧ (migrateSvgsToRecords (fun _ => false) { records := [], createCalls := 0, uploadCalls := 0, errors := [] } "m1"
        [{ id := some "3", filename := some "c", raw := "pic", type := "image", imageId := some "a9" }]).2.uploadCalls = 0 := by
  have h := C9_reuses_asset_reference (fun _ => false)
      { records := [], createCalls := 0, uploadCalls := 0, errors := [] } "m1"
      { id := some "3", filename := some "c", raw := "pic", type := "image", imageId := some "a9" }
      [] "a9" (by decide) (by decide) (by decide) (by decide)
  exact ⟨h.1, h.2 [{ id := some "3", filename := some "c", raw := "pic", type := "image", imageId := some "a9" }]
      { records := [], createCalls := 0, uploadCalls := 0, errors := [] }⟩

/-- C3 counterexample: with two legacy entries of which the second one's create call
fails, the migration returns only the first entry, yet `handleMigration` clears the
entire legacy blob — the failed entry does not remain for a future retry. -/
theorem C3_counterexample :
    (handleMigration cMigFail "migrate" cConfigSt).params.svgs = []
    ∧ ((migrateSvgsToRecords cMigFail cConfigSt.mig "m1" cConfigSt.params.svgs).1.map
        fun r => r.data.svg_content) = ["one"]
    ∧ cConfigSt.params.svgs.length = 2 := by
  refine ⟨?_, by decide, by decide⟩
  decide

/-- C3 (amended): after a confirmed migration run over a non-empty legacy blob with a
configured model id, the caller unconditionally clears the entire legacy blob (sets it
to `[]`), regardless of which entries appear in the list `migrateSvgsToRecords`
returned; entries whose migration failed are removed as well and are not retried. -/
theorem C3_amended_blob_cleared (fail : Nat → Bool) (st : ConfigState)
    (hne : (st.params.svgs.length == 0) = false) (hmid : truthyS st.params.svgModelId = true) :
    (handleMigration fail "migrate" st).params.svgs = [] := by
  simp [handleMigration, hne, hmid]

/-- Witness for the amended C3 at the concrete config world. -/
theorem C3_amended_witness :
    ((cConfigSt.params.svgs.length == 0) = false)
    ∧ truthyS cConfigSt.params.svgModelId = true
    ∧ (handleMigration cMigFail "migrate" cConfigSt).params.svgs = [] :=
  ⟨by decide, by decide, C3_amended_blob_cleared cMigFail cConfigSt (by decide) (by decide)⟩

/-- Appending an upload whose id does not match the searched id leaves `find?` unchanged. -/
theorem find?_append_singleton_ne (l : List Upload) (x : Upload) (aid : String)
    (hx : (x.id == aid) = false) :
    (l ++ [x]).find? (fun u => u.id == aid) = l.find? (fun u => u.id == aid) := by
  induction l with
  | nil => simp [List.find?, hx]
  | cons u rest ih =>
      by_cases hu : (u.id == aid) = true
      · simp [List.find?, hu]
      · simp only [Bool.not_eq_true] at hu
        simp [List.find?, hu, ih]

/-- A fresh address prepended to the content table does not affect other addresses. -/
theorem lookup_cons_ne (pc : List (String × String)) (fp raw p : String)
    (h : (fp == p) = false) :
    lookupStr ((fp, raw) :: pc) p = lookupStr pc p := by
  simp [lookupStr, h]

/-- When the content-replace call fails, the outcome is an error and the world is the
created temporary upload, destroyed again unless the destroy call also fails. -/
theorem updateExisting_updFail (o : Oracle) (st : SyncState) (tok aid raw fn : String)
    (env : Option String) (hc : o.createFails = false) (hu : o.updateFails = true) :
    (updateExistingUploadWithSvgContent o st tok aid raw fn env).1 = Except.error ()
    ∧ (updateExistingUploadWithSvgContent o st tok aid raw fn env).2.world =
        (if o.destroyFails then (createUploadW st.world raw).2
         else destroyUploadW (createUploadW st.world raw).2 (freshId st.world)) := by
  cases hd : o.destroyFails <;>
    simp [updateExistingUploadWithSvgContent, hc, hu, hd, createUploadW]

/-- Resolution of an id is unchanged in a world whose lookup of that id agrees with the
original and whose content table only gained an entry at the fresh (unused) address. -/
theorem resolvedContent_congr (w w2 : AssetWorld) (aid raw : String)
    (hfind : w2.uploads.find? (fun u => u.id == aid) = w.uploads.find? (fun u => u.id == aid))
    (hpc : w2.pathContent = (freshPath w, raw) :: w.pathContent)
    (hfp : freshPath w ∉ w.uploads.map Upload.path) :
    resolvedContent w2 aid = resolvedContent w aid := by
  unfold resolvedContent
  rw [hfind, hpc]
  cases hu : w.uploads.find? (fun u => u.id == aid) with
  | none => rfl
  | some u =>
      have hmem : u ∈ w.uploads := List.mem_of_find?_eq_some hu
      have hpath : (freshPath w == u.path) = false := by
        simp only [beq_eq_false_iff_ne, ne_eq]
        intro hh
        exact hfp (hh ▸ List.mem_map_of_mem Upload.path hmem)
      simp [lookup_cons_ne w.pathContent (freshPath w) raw u.path hpath]

/-- C10: Once the temporary upload has been created, the destroy call for it is issued
on every path — the replace call may fail or succeed and the destroy itself may fail,
yet a destroy event for the temporary id is always in the trace — and when the replace
call fails the original upload is left untouched: the lookup of the existing id and its
resolved content are exactly as before the call. -/
theorem C10_finally_destroys_temp (o : Oracle) (st : SyncState) (tok aid raw fn : String)
    (env : Option String) (hc : o.createFails = false) (hf : freshOk st.world)
    (hmem : aid ∈ st.world.uploads.map Upload.id) :
    CallEv.destroyUpload (freshId st.world)
        ∈ (updateExistingUploadWithSvgContent o st tok aid raw fn env).2.trace
    ∧ (o.updateFails = true →
        (updateExistingUploadWithSvgContent o st tok aid raw fn env).1 = Except.error ()
        ∧ ((updateExistingUploadWithSvgContent o st tok aid raw fn env).2.world.uploads.find?
              fun u => u.id == aid)
            = (st.world.uploads.find? fun u => u.id == aid)
        ∧ resolvedContent (updateExistingUploadWithSvgContent o st tok aid raw fn env).2.world aid
            = resolvedContent st.world aid) := by
  obtain ⟨hfi, hfp, hfc⟩ := hf
  have hne : (freshId st.world == aid) = false := by
    simp only [beq_eq_false_iff_ne, ne_eq]
    intro hh
    exact hfi (hh ▸ hmem)
  constructor
  · cases hu : o.updateFails <;> cases hd : o.destroyFails <;>
      simp [updateExistingUploadWithSvgContent, hc, hu, hd, createUploadW]
  · intro hu
    obtain ⟨h1, h2⟩ := updateExisting_updFail o st tok aid raw fn env hc hu
    have hfind : ((updateExistingUploadWithSvgContent o st tok aid raw fn env).2.world.uploads.find?
        fun u => u.id == aid) = st.world.uploads.find? fun u => u.id == aid := by
      rw [h2]
      by_cases hd : o.destroyFails = true
      · simp only [if_pos hd, createUploadW]
        exact find?_append_singleton_ne st.world.uploads _ aid hne
      · simp only [if_neg hd, destroyUploadW, createUploadW]
        rw [List.filter_append, filter_ne_of_not_mem _ _ hfi]
        simp [List.find?]
    have hpc2 : (updateExistingUploadWithSvgContent o st tok aid raw fn env).2.world.pathContent
        = (freshPath st.world, raw) :: st.world.pathContent := by
      rw [h2]
      by_cases hd : o.destroyFails = true <;> simp [hd, destroyUploadW, createUploadW]
    exact ⟨h1, hfind,
      resolvedContent_congr st.world
        (updateExistingUploadWithSvgContent o st tok aid raw fn env).2.world aid raw hfind hpc2 hfp⟩

/-- Witness for C10 at a concrete world where the replace call fails. -/
theorem C10_witness :
    CallEv.destroyUpload (freshId cSyncSt.world)
        ∈ (updateExistingUploadWithSvgContent cOracleUpdFail cSyncSt "tok" "a1" "<svg/>" "icon" none).2.trace
    ∧ (updateExistingUploadWithSvgContent cOracleUpdFail cSyncSt "tok" "a1" "<svg/>" "icon" none).1
        = Except.error ()
    ∧ resolvedContent (updateExistingUploadWithSvgContent cOracleUpdFail cSyncSt "tok" "a1" "<svg/>" "icon" none).2.world "a1"
        = resolvedContent cSyncSt.world "a1" := by
  have h := C10_finally_destroys_temp cOracleUpdFail cSyncSt "tok" "a1" "<svg/>" "icon" none
    (by decide) (by decide) (by decide)
  exact ⟨h.1, (h.2 (by decide)).1, (h.2 (by decide)).2.2⟩

/-- C8 counterexample: on a concrete successful swap the existing upload's content
address afterwards equals exactly the address of the temporary upload created mid-swap,
contradicting the claim that it never equals the temporary asset's id/address. -/
theorem C8_counterexample :
    (createUploadW cSyncSt.world "<svg/>").1.path = freshPath cSyncSt.world
    ∧ (updateExistingUploadWithSvgContent cOracle cSyncSt "tok" "a1" "<svg/>" "icon" none).1 = Except.ok ()
    ∧ (((updateExistingUploadWithSvgContent cOracle cSyncSt "tok" "a1" "<svg/>" "icon" none).2.world.uploads.find?
          fun u => u.id == "a1").map Upload.path) = some (freshPath cSyncSt.world) := by
  refine ⟨rfl, rfl, by decide⟩

/-- C8 (amended): after a successful swap the existing upload still has id `aid`, the
temporary upload's id no longer exists in the store (no dangling temporary id), and the
existing upload's content address is exactly the temporary upload's mid-swap address —
that address transfer is the swap's mechanism — which resolves to the new content. -/
theorem C8_amended_temp_removed (o : Oracle) (st : SyncState) (tok aid raw fn : String)
    (env : Option String) (ho : allOk o) (hf : freshOk st.world)
    (hmem : aid ∈ st.world.uploads.map Upload.id) :
    (updateExistingUploadWithSvgContent o st tok aid raw fn env).1 = Except.ok ()
    ∧ ((updateExistingUploadWithSvgContent o st tok aid raw fn env).2.world.uploads.find?
          fun u => u.id == aid)
        = some { id := aid, path := freshPath st.world }
    ∧ freshId st.world
        ∉ (updateExistingUploadWithSvgContent o st tok aid raw fn env).2.world.uploads.map Upload.id
    ∧ aid ≠ freshId st.world
    ∧ resolvedContent (updateExistingUploadWithSvgContent o st tok aid raw fn env).2.world aid
        = some raw := by
  have hne : aid ≠ freshId st.world := fun hh => hf.1 (hh ▸ hmem)
  rw [updateExisting_allOk_eq o st tok aid raw fn env ho]
  dsimp only
  rw [world_after_swap st.world aid raw hmem hf]
  refine ⟨rfl, ?_, ?_, hne, ?_⟩
  · exact find?_map_set_path st.world.uploads aid (freshPath st.world) hmem
  · dsimp only
    rw [ids_of_map_set_path]
    exact hf.1
  · rw [← world_after_swap st.world aid raw hmem hf]
    exact resolved_after_swap st.world aid raw hmem hf

/-- Witness for the amended C8 at the concrete one-upload world. -/
theorem C8_amended_witness :
    (updateExistingUploadWithSvgContent cOracle cSyncSt "tok" "a1" "<svg/>" "icon" none).1 = Except.ok ()
    ∧ ((updateExistingUploadWithSvgContent cOracle cSyncSt "tok" "a1" "<svg/>" "icon" none).2.world.uploads.find?
          fun u => u.id == "a1")
        = some { id := "a1", path := freshPath cSyncSt.world }
    ∧ freshId cSyncSt.world
        ∉ (updateExistingUploadWithSvgContent cOracle cSyncSt "tok" "a1" "<svg/>" "icon" none).2.world.uploads.map Upload.id
    ∧ "a1" ≠ freshId cSyncSt.world
    ∧ resolvedContent (updateExistingUploadWithSvgContent cOracle cSyncSt "tok" "a1" "<svg/>" "icon" none).2.world "a1"
        = some "<svg/>" :=
  C8_amended_temp_removed cOracle cSyncSt "tok" "a1" "<svg/>" "icon" none
    (by decide) (by decide) (by decide)

/-- Characterization of the final guard plus swap when the target resolves and every
remote call succeeds: outcome synced, exactly the three upload calls appended, the
target id resolving to the new content and still present in the store. -/
theorem syncFinish_allOk (o : Oracle) (st : SyncState) (tok env : String)
    (mid uploadId itemTypeId : Option String) (svgC nm : String) (aid : String)
    (ho : allOk o) (hf : freshOk st.world)
    (hu : uploadId = some aid) (haid : aid ≠ "") (hit : itemTypeId = mid)
    (hmem : aid ∈ st.world.uploads.map Upload.id) :
    (syncFinish o st tok env mid uploadId itemTypeId svgC nm).1 = SyncOutcome.synced
    ∧ (∃ f, (syncFinish o st tok env mid uploadId itemTypeId svgC nm).2.trace
        = st.trace ++ [CallEv.createUpload svgC f,
                       CallEv.updateUpload aid (freshPath st.world),
                       CallEv.destroyUpload (freshId st.world)])
    ∧ resolvedContent (syncFinish o st tok env mid uploadId itemTypeId svgC nm).2.world aid
        = some svgC
    ∧ aid ∈ (syncFinish o st tok env mid uploadId itemTypeId svgC nm).2.world.uploads.map Upload.id := by
  subst hu
  subst hit
  have hcond : ¬(truthyS (some aid) = false ∨ itemTypeId ≠ itemTypeId) := by
    simp [truthyS, haid]
  unfold syncFinish
  rw [if_neg hcond]
  simp only [Option.getD_some]
  rw [updateExisting_allOk_eq o st tok aid svgC (if nm == "" then "untitled" else nm) (some env) ho]
  refine ⟨rfl, ⟨(if nm == "" then "untitled" else nm) ++ ".svg", rfl⟩, ?_, ?_⟩
  · exact resolved_after_swap st.world aid svgC hmem hf
  · show aid ∈ (destroyUploadW (updateUploadW (createUploadW st.world svgC).2 aid (freshPath st.world))
        (freshId st.world)).uploads.map Upload.id
    rw [world_after_swap st.world aid svgC hmem hf]
    show aid ∈ (st.world.uploads.map fun u =>
        if u.id = aid then { u with path := freshPath st.world } else u).map Upload.id
    rw [ids_of_map_set_path]
    exact hmem

/-- C1: Whenever the sync engine runs on an event carrying well-formed content and
resolves an existing upload id `aid` (directly from the event or from the fetched
record), with every remote call succeeding, the content-replace call in the trace
targets exactly `aid` — which differs from the freshly created temporary id — and
afterwards the upload id `aid` still exists and resolves to the new content. -/
theorem C1_swap_preserves_identity (isSvg : String → Bool) (o : Oracle) (st : SyncState)
    (payload : Payload) (apiToken : Option String) (environment : String)
    (svgModelId : Option String) (aid : String)
    (ho : allOk o) (hf : freshOk st.world)
    (htok : truthyS apiToken = true) (hmid : truthyS svgModelId = true)
    (hC : payloadSvgContent payload ≠ "") (hsvg : isSvg (payloadSvgContent payload) = true)
    (hit : effItemType payload st.items = svgModelId)
    (hup : effUploadId payload st.items = some aid) (haid : aid ≠ "")
    (hfetch : truthyS payload.id = true → (fetchedItem payload st.items).isSome = true)
    (hmem : aid ∈ st.world.uploads.map Upload.id) :
    (syncMediaOnItemUpsert isSvg o st payload apiToken environment svgModelId).1
        = SyncOutcome.synced
    ∧ (∃ f, (syncMediaOnItemUpsert isSvg o st payload apiToken environment svgModelId).2.trace.filter isUploadCall
          = st.trace.filter isUploadCall ++
            [CallEv.createUpload (payloadSvgContent payload) f,
             CallEv.updateUpload aid (freshPath st.world),
             CallEv.destroyUpload (freshId st.world)])
    ∧ aid ≠ freshId st.world
    ∧ resolvedContent (syncMediaOnItemUpsert isSvg o st payload apiToken environment svgModelId).2.world aid
        = some (payloadSvgContent payload)
    ∧ aid ∈ (syncMediaOnItemUpsert isSvg o st payload apiToken environment svgModelId).2.world.uploads.map Upload.id := by
  have hne : aid ≠ freshId st.world := fun hh => hf.1 (hh ▸ hmem)
  have hCb : (payloadSvgContent payload == "") = false := by
    simp only [beq_eq_false_iff_ne, ne_eq]
    exact hC
  by_cases hid : truthyS payload.id = true
  · obtain ⟨item, hitem⟩ := Option.isSome_iff_exists.mp (hfetch hid)
    have hitem' : st.items.find? (fun it => it.id == payload.id.getD "") = some item := by
      simpa [fetchedItem] using hitem
    have hit' : (if truthyS payload.itemTypeId then payload.itemTypeId else item.itemTypeId)
        = svgModelId := by
      simpa [effItemType, hid, hitem] using hit
    have hup' : (if truthyS ((payload.attrs.getD emptyAttrs).mediaUpload.bind MediaUploadAttr.uploadId)
          then (payload.attrs.getD emptyAttrs).mediaUpload.bind MediaUploadAttr.uploadId
          else match item.mediaUploadId with
               | some s => some s
               | none => (payload.attrs.getD emptyAttrs).mediaUpload.bind MediaUploadAttr.uploadId)
        = some aid := by
      simpa [effUploadId, hid, hitem] using hup
    have hsync : syncMediaOnItemUpsert isSvg o st payload apiToken environment svgModelId
        = syncFinish o { st with trace := st.trace ++ [CallEv.findItem (payload.id.getD "")] }
            (apiToken.getD "") environment svgModelId (some aid) svgModelId
            (payloadSvgContent payload)
            (if ((payload.attrs.getD emptyAttrs).name.getD "untitled") == "untitled"
                  && truthyS item.name
             then item.name.getD ""
             else (payload.attrs.getD emptyAttrs).name.getD "untitled") := by
      simp only [syncMediaOnItemUpsert, htok, hmid, hCb, hsvg, hid, ho.1, hitem']
      simp [hit', hup']
    obtain ⟨f1, f2, f3, f4⟩ := syncFinish_allOk o
      { st with trace := st.trace ++ [CallEv.findItem (payload.id.getD "")] }
      (apiToken.getD "") environment svgModelId (some aid) svgModelId
      (payloadSvgContent payload)
      (if ((payload.attrs.getD emptyAttrs).name.getD "untitled") == "untitled"
            && truthyS item.name
       then item.name.getD ""
       else (payload.attrs.getD emptyAttrs).name.getD "untitled")
      aid ho hf rfl haid rfl hmem
    obtain ⟨F, hF⟩ := f2
    rw [hsync]
    refine ⟨f1, ⟨F, ?_⟩, hne, f3, f4⟩
    rw [hF]
    simp [List.filter_append, isUploadCall]
  · have hit' : payload.itemTypeId = svgModelId := by
      simpa [effItemType, hid] using hit
    have hup' : (payload.attrs.getD emptyAttrs).mediaUpload.bind MediaUploadAttr.uploadId
        = some aid := by
      simpa [effUploadId, hid] using hup
    have hsync : syncMediaOnItemUpsert isSvg o st payload apiToken environment svgModelId
        = syncFinish o st (apiToken.getD "") environment svgModelId (some aid) svgModelId
            (payloadSvgContent payload) ((payload.attrs.getD emptyAttrs).name.getD "untitled") := by
      simp only [syncMediaOnItemUpsert, htok, hmid, hCb, hsvg, hid]
      simp [hit', hup']
    obtain ⟨f1, f2, f3, f4⟩ := syncFinish_allOk o st (apiToken.getD "") environment svgModelId
      (some aid) svgModelId (payloadSvgContent payload)
      ((payload.attrs.getD emptyAttrs).name.getD "untitled") aid ho hf rfl haid rfl hmem
    obtain ⟨F, hF⟩ := f2
    rw [hsync]
    refine ⟨f1, ⟨F, ?_⟩, hne, f3, f4⟩
    rw [hF]
    simp [List.filter_append, isUploadCall]

/-- Witness for C1 at a concrete create payload carrying an explicit upload reference. -/
theorem C1_witness :
    (syncMediaOnItemUpsert cIsSvg cOracle cSyncSt cPayloadCreate (some "tok") "main" (some "m1")).1
        = SyncOutcome.synced
    ∧ (∃ f, (syncMediaOnItemUpsert cIsSvg cOracle cSyncSt cPayloadCreate (some "tok") "main" (some "m1")).2.trace.filter isUploadCall
          = cSyncSt.trace.filter isUploadCall ++
            [CallEv.createUpload (payloadSvgContent cPayloadCreate) f,
             CallEv.updateUpload "a1" (freshPath cSyncSt.world),
             CallEv.destroyUpload (freshId cSyncSt.world)])
    ∧ "a1" ≠ freshId cSyncSt.world
    ∧ resolvedContent (syncMediaOnItemUpsert cIsSvg cOracle cSyncSt cPayloadCreate (some "tok") "main" (some "m1")).2.world "a1"
        = some (payloadSvgContent cPayloadCreate)
    ∧ "a1" ∈ (syncMediaOnItemUpsert cIsSvg cOracle cSyncSt cPayloadCreate (some "tok") "main" (some "m1")).2.world.uploads.map Upload.id :=
  C1_swap_preserves_identity cIsSvg cOracle cSyncSt cPayloadCreate (some "tok") "main" (some "m1") "a1"
    (by decide) (by decide) (by decide) (by decide) (by decide) (by decide) (by decide)
    (by decide) (by decide) (by decide) (by decide)

/-- C7 counterexample: an update payload that carries no model-type identifier at all
still triggers an Asset Store mutation (the engine recovers the model type from the
fetched record), so "mutates only when the event's model-type identifier equals the
managed model id" is false as stated. -/
theorem C7_counterexample :
    cPayloadNoType.itemTypeId ≠ some "m1"
    ∧ (syncMediaOnItemUpsert cIsSvg cOracle cSyncSt cPayloadNoType (some "tok") "main" (some "m1")).1
        = SyncOutcome.synced
    ∧ uploadCallCount (syncMediaOnItemUpsert cIsSvg cOracle cSyncSt cPayloadNoType (some "tok") "main" (some "m1")).2.trace
        ≠ uploadCallCount cSyncSt.trace := by
  refine ⟨by decide, by decide, by decide⟩

/-- C7 (amended): the engine issues Asset Store calls only when the model-type
identifier it resolves — the event's own when present, otherwise the fetched record's —
equals the managed model id supplied by the caller, and a non-empty upload id was
resolved from the event's attributes or the fetched current record; whenever no such
reference resolves, no upload call is issued (the engine never creates a first-time
asset). -/
theorem C7_amended_gating (isSvg : String → Bool) (o : Oracle) (st : SyncState)
    (payload : Payload) (apiToken : Option String) (environment : String)
    (svgModelId : Option String)
    (hmut : uploadCallCount (syncMediaOnItemUpsert isSvg o st payload apiToken environment svgModelId).2.trace
        ≠ uploadCallCount st.trace) :
    effItemType payload st.items = svgModelId
    ∧ ∃ a, effUploadId payload st.items = some a ∧ a ≠ "" := by
  by_cases h1 : truthyS apiToken = false ∨ truthyS svgModelId = false
  · simp [syncMediaOnItemUpsert, h1] at hmut
  by_cases h2 : payloadSvgContent payload = "" ∨ isSvg (payloadSvgContent payload) = false
  · simp [syncMediaOnItemUpsert, h1, h2] at hmut
  by_cases h3 : truthyS payload.id = true
  · by_cases h4 : o.findFails = true
    · simp [syncMediaOnItemUpsert, h1, h2, h3, h4, uploadCallCount, isUploadCall,
        List.filter_append] at hmut
    cases hfind : st.items.find? (fun it => it.id == payload.id.getD "") with
    | none =>
        simp [syncMediaOnItemUpsert, h1, h2, h3, h4, hfind, uploadCallCount, isUploadCall,
          List.filter_append] at hmut
    | some item =>
        by_cases h5 : (if truthyS payload.itemTypeId then payload.itemTypeId else item.itemTypeId)
            ≠ svgModelId
        · simp [syncMediaOnItemUpsert, h1, h2, h3, h4, hfind, h5, uploadCallCount, isUploadCall,
            List.filter_append] at hmut
        · push_neg at h5
          refine ⟨by simp [effItemType, fetchedItem, h3, hfind, h5], ?_⟩
          by_cases h6 : truthyS
              (if truthyS ((payload.attrs.getD emptyAttrs).mediaUpload.bind MediaUploadAttr.uploadId) = true
               then (payload.attrs.getD emptyAttrs).mediaUpload.bind MediaUploadAttr.uploadId
               else match item.mediaUploadId with
                    | some s => some s
                    | none => (payload.attrs.getD emptyAttrs).mediaUpload.bind MediaUploadAttr.uploadId)
              = false
          · simp [syncMediaOnItemUpsert, syncFinish, h1, h2, h3, h4, hfind, h5, h6,
              uploadCallCount, isUploadCall, List.filter_append] at hmut
          · have h6' : truthyS
                (if truthyS ((payload.attrs.getD emptyAttrs).mediaUpload.bind MediaUploadAttr.uploadId) = true
                 then (payload.attrs.getD emptyAttrs).mediaUpload.bind MediaUploadAttr.uploadId
                 else match item.mediaUploadId with
                      | some s => some s
                      | none => (payload.attrs.getD emptyAttrs).mediaUpload.bind MediaUploadAttr.uploadId)
                = true := by
              cases hb : truthyS
                  (if truthyS ((payload.attrs.getD emptyAttrs).mediaUpload.bind MediaUploadAttr.uploadId) = true
                   then (payload.attrs.getD emptyAttrs).mediaUpload.bind MediaUploadAttr.uploadId
                   else match item.mediaUploadId with
                        | some s => some s
                        | none => (payload.attrs.getD emptyAttrs).mediaUpload.bind MediaUploadAttr.uploadId)
              · exact absurd hb h6
              · rfl
            cases hu1 : (if truthyS ((payload.attrs.getD emptyAttrs).mediaUpload.bind MediaUploadAttr.uploadId) = true
                 then (payload.attrs.getD emptyAttrs).mediaUpload.bind MediaUploadAttr.uploadId
                 else match item.mediaUploadId with
                      | some s => some s
                      | none => (payload.attrs.getD emptyAttrs).mediaUpload.bind MediaUploadAttr.uploadId) with
            | none => rw [hu1] at h6'; simp [truthyS] at h6'
            | some a =>
                refine ⟨a, ?_, ?_⟩
                · simpa [effUploadId, fetchedItem, h3, hfind] using hu1
                · rw [hu1] at h6'
                  simpa [truthyS] using h6'
  · by_cases h5 : payload.itemTypeId ≠ svgModelId
    · simp [syncMediaOnItemUpsert, syncFinish, h1, h2, h3, h5, uploadCallCount, isUploadCall,
        List.filter_append] at hmut
    · push_neg at h5
      refine ⟨by simpa [effItemType, h3] using h5, ?_⟩
      by_cases h6 : truthyS ((payload.attrs.getD emptyAttrs).mediaUpload.bind MediaUploadAttr.uploadId)
          = false
      · simp [syncMediaOnItemUpsert, syncFinish, h1, h2, h3, h6, uploadCallCount, isUploadCall,
          List.filter_append] at hmut
      · have h6' : truthyS ((payload.attrs.getD emptyAttrs).mediaUpload.bind MediaUploadAttr.uploadId)
            = true := by
          cases hb : truthyS ((payload.attrs.getD emptyAttrs).mediaUpload.bind MediaUploadAttr.uploadId)
          · exact absurd hb h6
          · rfl
        cases hu1 : (payload.attrs.getD emptyAttrs).mediaUpload.bind MediaUploadAttr.uploadId with
        | none => rw [hu1] at h6'; simp [truthyS] at h6'
        | some a =>
            refine ⟨a, ?_, ?_⟩
            · simpa [effUploadId, h3] using hu1
            · rw [hu1] at h6'
              simpa [truthyS] using h6'

/-- Witness for the amended C7 at the concrete no-model-type payload. -/
theorem C7_amended_witness :
    effItemType cPayloadNoType cSyncSt.items = some "m1"
    ∧ ∃ a, effUploadId cPayloadNoType cSyncSt.items = some a ∧ a ≠ "" :=
  C7_amended_gating cIsSvg cOracle cSyncSt cPayloadNoType (some "tok") "main" (some "m1")
    (by decide)

end EverythingSvg
